import Mathlib

/-!
Verification of the admission/gating pipeline of the Solana scanner
(`solana_scanner.py`, `utils.py`, `config.py`).

Shallow embedding conventions:
- Python floats are modelled as exact rationals (`ℚ`); every claim under
  scrutiny is about comparison logic, not rounding.
- Unix timestamps and counters are modelled as `ℤ`.
- The mutable dict `self._ignorable_tokens` is an association list
  `IgnoreMap`; a dict store `d[k] = v` prepends and lookups take the first
  hit, which is observationally the overwrite semantics of the dict.
- Fallible external calls (the Moralis HTTP client raises after its retry
  budget; the Telegram delivery and file writes may raise) are modelled as
  `Except Unit` values supplied by an `Oracle` record; a Python exception
  escaping `_handle_token_of_interest` is the `.error` case.
- Calls whose failures are caught locally and only affect the alert payload
  (DexScreener links, Helius enhanced details, the buyer-recency
  aggregation, which catches all exceptions internally) are elided: they
  can neither fail the pipeline nor change any classification or state.
- Logging is elided throughout.
-/

/-- Modelled from the spec: `dex_scanner/scan_responses.py` is not among the
sources; the spec describes the classification as a closed set of terminal
outcomes. Constructors follow the member names used by `solana_scanner.py`. -/
inductive HandlePoolResponse where
  | IGNORABLE
  | ERROR
  | MIN_LIQUIDITY
  | MCAP_RANGE
  | TOP_5_HOLDERS_ABOVE_TH
  | LOW_HOLDER_COUNT
  | MIN_24H_VOLUME
  | NO_BUY_OUTLIER
  | PASSED
deriving DecidableEq, Repr

/-- Modelled from the spec: the enum string values (`resp.value`) used as
scan-report keys are not in the sources; they are taken as the member names,
which keeps them pairwise distinct as any Python `Enum` guarantees. -/
def HandlePoolResponse.value : HandlePoolResponse → String
  | .IGNORABLE => "IGNORABLE"
  | .ERROR => "ERROR"
  | .MIN_LIQUIDITY => "MIN_LIQUIDITY"
  | .MCAP_RANGE => "MCAP_RANGE"
  | .TOP_5_HOLDERS_ABOVE_TH => "TOP_5_HOLDERS_ABOVE_TH"
  | .LOW_HOLDER_COUNT => "LOW_HOLDER_COUNT"
  | .MIN_24H_VOLUME => "MIN_24H_VOLUME"
  | .NO_BUY_OUTLIER => "NO_BUY_OUTLIER"
  | .PASSED => "PASSED"

/-- `dex_scanner/data_types.py`: `SolanaChainParameterConfig`. -/
structure SolanaChainParameterConfig where
  min_liquidity_in_usd : ℚ
  min_mcap_in_usd : ℚ
  max_mcap_in_usd : ℚ
  max_holding_percentage_top_5_holders : ℚ
  min_holder_count : ℤ
  min_24h_usd_volume_as_percentage_of_mcap : ℚ
  std_multiple_for_outlier : ℚ
deriving DecidableEq, Repr

/-- The readability states of `chain_parameters/<name>.json` as seen by
`utils.load_chain_parameter_config`: the file may be absent, present but
unreadable/malformed (any exception while opening or JSON-decoding), or
readable with a parameter set. -/
inductive ParamFile where
  | absent
  | malformed
  | content (c : SolanaChainParameterConfig)
deriving DecidableEq

/-- `utils.py` lines 11-19: the hard-coded `default_config` dict. -/
def default_config : SolanaChainParameterConfig :=
  { min_liquidity_in_usd := 10000
    min_mcap_in_usd := 100000
    max_mcap_in_usd := 10000000
    max_holding_percentage_top_5_holders := 50
    min_holder_count := 100
    min_24h_usd_volume_as_percentage_of_mcap := 5
    std_multiple_for_outlier := 2 }

/-- `utils.load_chain_parameter_config`: if the file exists, try to parse it
and on any exception return `default_config`; if it does not exist, write the
default config out (a side effect elided here) and return it. -/
def load_chain_parameter_config : ParamFile → SolanaChainParameterConfig
  | .absent => default_config
  | .malformed => default_config
  | .content c => c

/-- `solana_scanner.run` lines 481-486: at the top of every cycle the result
of the load unconditionally replaces `self.chain_parameter_config`; the
previous in-memory value is an argument only to show it is ignored. -/
def reload_chain_parameter_config (_prev : SolanaChainParameterConfig)
    (file : ParamFile) : SolanaChainParameterConfig :=
  load_chain_parameter_config file

/-- The in-memory cooldown cache `self._ignorable_tokens`
(asset identifier to expiry timestamp). -/
def IgnoreMap : Type := List (String × ℤ)

/-- `solana_scanner._add_token_to_ignore`: `self._ignorable_tokens[pool] = ts`
(dict overwrite: prepend, lookups take the first hit). -/
def addTokenToIgnore (m : IgnoreMap) (pool : String)
    (ignore_till_timestamp : ℤ) : IgnoreMap :=
  (pool, ignore_till_timestamp) :: m

/-- `solana_scanner._token_is_ignorable`: membership test, then
`self._ignorable_tokens[token] >= timestamp`. -/
def tokenIsIgnorable (m : IgnoreMap) (token : String) (timestamp : ℤ) : Bool :=
  match List.lookup token m with
  | some till => decide (till ≥ timestamp)
  | none => false

theorem tokenIsIgnorable_iff (m : IgnoreMap) (token : String) (timestamp : ℤ) :
    tokenIsIgnorable m token timestamp = true ↔
      ∃ till, List.lookup token m = some till ∧ timestamp ≤ till := by
  unfold tokenIsIgnorable
  cases h : List.lookup token m with
  | none => simp [h]
  | some till => simp [h, ge_iff_le]

/-- C6: `_token_is_ignorable(asset, now)` is true iff a cooldown entry exists
for the asset and its expiry is ≥ `now`; a missing entry is never suppressed;
an existing entry is still suppressed exactly at its expiry and no longer
suppressed one time unit later. -/
theorem c6_is_suppressed_iff (m : IgnoreMap) (a : String) (now : ℤ) :
    (tokenIsIgnorable m a now = true ↔
        ∃ till, List.lookup a m = some till ∧ till ≥ now) ∧
    (List.lookup a m = none → tokenIsIgnorable m a now = false) ∧
    (∀ till, List.lookup a m = some till →
      tokenIsIgnorable m a till = true ∧
        tokenIsIgnorable m a (till + 1) = false) := by
  refine ⟨(tokenIsIgnorable_iff m a now).trans (by simp [ge_iff_le]), ?_, ?_⟩
  · intro h
    unfold tokenIsIgnorable
    simp [h]
  · intro till h
    unfold tokenIsIgnorable
    refine ⟨by simp [h], by simp [h]⟩

/-- Witness for C6 at a concrete cache: entry for "tokA" expiring at 100 is
suppressed at 100 and not at 101; "tokB" is absent hence not suppressed. -/
theorem c6_is_suppressed_iff_witness :
    tokenIsIgnorable [("tokA", (100 : ℤ))] "tokA" 100 = true ∧
    tokenIsIgnorable [("tokA", (100 : ℤ))] "tokA" 101 = false ∧
    tokenIsIgnorable [("tokA", (100 : ℤ))] "tokB" 50 = false := by
  refine ⟨((c6_is_suppressed_iff [("tokA", (100 : ℤ))] "tokA" 100).2.2 100
      (by decide)).1,
    ((c6_is_suppressed_iff [("tokA", (100 : ℤ))] "tokA" 100).2.2 100
      (by decide)).2, ?_⟩
  exact (c6_is_suppressed_iff [("tokA", (100 : ℤ))] "tokB" 50).2.1 (by decide)

/-- A custom parameter set distinct from the built-in default, standing for a
last-known-good configuration loaded in an earlier cycle. -/
def customParams : SolanaChainParameterConfig :=
  { min_liquidity_in_usd := 99
    min_mcap_in_usd := 5
    max_mcap_in_usd := 77777
    max_holding_percentage_top_5_holders := 12
    min_holder_count := 42
    min_24h_usd_volume_as_percentage_of_mcap := 3
    std_multiple_for_outlier := 7 }

/-- C5 counterexample: with `customParams` as the previous in-memory set and
a malformed parameter file, the cycle proceeds with the hard-coded
`default_config`, not with the previous in-memory set. -/
theorem c5_counterexample :
    reload_chain_parameter_config customParams ParamFile.malformed
        = default_config ∧
      reload_chain_parameter_config customParams ParamFile.malformed
        ≠ customParams := by
  constructor
  · rfl
  · intro h
    have := congrArg SolanaChainParameterConfig.min_liquidity_in_usd h
    simp [reload_chain_parameter_config, load_chain_parameter_config,
      default_config, customParams] at this

/-- C5 amended: when the per-cycle parameter load fails (file unreadable or
malformed) or the file is absent, the loader returns without raising and the
cycle proceeds, but with the built-in `default_config` replacing the
in-memory parameter set regardless of its previous value (not
last-known-good). -/
theorem c5_reload_on_failure_yields_default (prev : SolanaChainParameterConfig) :
    reload_chain_parameter_config prev ParamFile.malformed = default_config ∧
    reload_chain_parameter_config prev ParamFile.absent = default_config := by
  exact ⟨rfl, rfl⟩

/-- One candidate record from the graduated-tokens feed. `dict.get` on a
missing key is `none`; numeric fields are parsed with `float(...)` at use
sites, modelled as rationals. -/
structure TokenData where
  tokenAddress : String
  liquidity : Option ℚ
  fullyDilutedValuation : Option ℚ
  priceUsd : Option ℚ
deriving DecidableEq, Repr

/-- One entry of the Moralis top-holders response; only the fields the
pipeline reads. -/
structure Holder where
  isContract : Bool
  percentageRelativeToTotalSupply : ℚ
deriving DecidableEq, Repr

/-- The Moralis holder-stats response; only the field the pipeline reads. -/
structure HolderStats where
  totalHolders : ℤ
deriving DecidableEq, Repr

/-- The Moralis token-analytics response, restricted to the windowed values
`_handle_token_of_interest` reads for its decisions. -/
structure TokenAnalytics where
  totalBuyVolume_24h : ℚ
  totalBuyVolume_1h : ℚ
  totalSellVolume_24h : ℚ
  totalBuys_24h : ℚ
  totalSells_24h : ℚ
deriving DecidableEq, Repr

/-- The Moralis token-metadata response fields used for the alert payload. -/
structure TokenMetadata where
  name : String
  symbol : String
  totalSupplyFormatted : ℚ
deriving DecidableEq, Repr

/-- One entry of the Moralis token-pairs response. -/
structure TokenPair where
  exchangeName : String
  pairAddress : String
deriving DecidableEq, Repr

/-- The external world as seen by one scanner: each fallible call site is a
function returning `Except Unit` (the `.error` case is a Python exception
escaping the client after its retry budget, or a delivery/file-write
failure). Candlestick rows are reduced to their timestamps; only emptiness
and timestamps are ever inspected. -/
structure Oracle where
  getTopTokenHolders : String → Except Unit (List Holder)
  getTokenHolderStats : String → Except Unit HolderStats
  getTokenAnalytics : String → Except Unit TokenAnalytics
  getTokenMetadata : String → Except Unit TokenMetadata
  getTokenPairs : String → Except Unit (List TokenPair)
  get24hCandlestickData : String → Except Unit (List ℤ)
  deliverAlert : String → Except Unit Unit
  storeAlerted : String → Except Unit Unit
  getRecentlyGraduatedTokens : Except Unit (List TokenData)
  saveScanReport : List (String × ℕ) → Except Unit Unit

/-- The per-candidate side effects whose order claims speak about. -/
inductive Event where
  | sendAlert (token_address : String)
  | addIgnore (token_address : String) (ignore_till : ℤ)
  | storeAlerted (token_address : String)
deriving DecidableEq, Repr

/-- The fields of `SolanaConfig` (config.py) the pipeline reads. -/
structure ScannerConfig where
  SECONDS_TO_IGNORE_TOKEN_OR_POOL_AFTER_SIGNAL : ℤ
deriving DecidableEq, Repr

/-- The accumulator loop of `_handle_token_of_interest` lines 99-105:
append non-contract holders, stop as soon as five are collected. -/
def collectTop5Go : List Holder → List Holder → List Holder
  | [], acc => acc
  | h :: rest, acc =>
    if h.isContract then collectTop5Go rest acc
    else
      let acc2 := acc ++ [h]
      if acc2.length = 5 then acc2 else collectTop5Go rest acc2

/-- `top_5_holders` as built from the Moralis top-holders list. -/
def collectTop5NonContract (holders : List Holder) : List Holder :=
  collectTop5Go holders []

/-- Lines 168-172: scan `token_pairs` for the first pair whose
`exchangeName` is "PumpSwap"; `pool_address` stays "" when none matches. -/
def resolvePoolAddress : List TokenPair → String
  | [] => ""
  | p :: rest =>
    if p.exchangeName = "PumpSwap" then p.pairAddress else resolvePoolAddress rest

/-- `_send_alert` (lines 316-440): when `candlestick_data` is empty the
method logs a warning and returns without sending anything; otherwise it
renders the chart and performs the Telegram sends, collapsed here into the
single fallible external action `deliverAlert` (the spec treats the
delivery mechanism as an opaque external collaborator). -/
def sendAlertE (o : Oracle) (token_address : String)
    (candlestick_data : List ℤ) : Except Unit Unit :=
  if candlestick_data.isEmpty then Except.ok ()
  else o.deliverAlert token_address

/-- `_handle_token_of_interest` (lines 57-247), translated stage by stage in
source order. Returns the classification (or the escaped exception), the
cooldown cache after the call, and the ordered side-effect trace. State
mutated before an exception is kept, as in Python. -/
def handleTokenOfInterest (o : Oracle) (cfg : ScannerConfig)
    (params : SolanaChainParameterConfig) (st : IgnoreMap)
    (token_data : TokenData) (timestamp : ℤ) :
    Except Unit HandlePoolResponse × IgnoreMap × List Event :=
  let token_address := token_data.tokenAddress
  if tokenIsIgnorable st token_address timestamp then
    (Except.ok .IGNORABLE, st, [])
  else
    match token_data.liquidity with
    | none => (Except.ok .ERROR, st, [])
    | some liquidity_val =>
      if liquidity_val < params.min_liquidity_in_usd then
        (Except.ok .MIN_LIQUIDITY, st, [])
      else
        match token_data.fullyDilutedValuation with
        | none => (Except.ok .ERROR, st, [])
        | some mcap_usd =>
          if mcap_usd < params.min_mcap_in_usd ∨
              mcap_usd > params.max_mcap_in_usd then
            (Except.ok .MCAP_RANGE, st, [])
          else
            match o.getTopTokenHolders token_address with
            | .error e => (Except.error e, st, [])
            | .ok top_token_holders =>
              let top_5_holders := collectTop5NonContract top_token_holders
              let top_5_holders_percentage_holding :=
                (top_5_holders.map
                  (·.percentageRelativeToTotalSupply)).sum
              if top_5_holders_percentage_holding >
                  params.max_holding_percentage_top_5_holders then
                (Except.ok .TOP_5_HOLDERS_ABOVE_TH, st, [])
              else
                match o.getTokenHolderStats token_address with
                | .error e => (Except.error e, st, [])
                | .ok token_holder_stats =>
                  if token_holder_stats.totalHolders <
                      params.min_holder_count then
                    (Except.ok .LOW_HOLDER_COUNT, st, [])
                  else
                    match o.getTokenAnalytics token_address with
                    | .error e => (Except.error e, st, [])
                    | .ok token_analytics =>
                      -- get_first_time_vs_repeat_buyers (line 137) catches
                      -- every exception internally and only feeds the alert
                      -- payload; elided.
                      -- Line 140-143: the second summand is again the 24h
                      -- BUY volume, exactly as in the source.
                      let _24h_usd_volume :=
                        token_analytics.totalBuyVolume_24h
                          + token_analytics.totalBuyVolume_24h
                      if _24h_usd_volume < mcap_usd *
                          params.min_24h_usd_volume_as_percentage_of_mcap
                          / 100 then
                        (Except.ok .MIN_24H_VOLUME, st, [])
                      else
                        let h1_threshold :=
                          token_analytics.totalBuyVolume_24h *
                            params.std_multiple_for_outlier / 24
                        if token_analytics.totalBuyVolume_1h ≤ h1_threshold then
                          (Except.ok .NO_BUY_OUTLIER, st, [])
                        else
                          match o.getTokenMetadata token_address with
                          | .error e => (Except.error e, st, [])
                          | .ok _token_metadata =>
                            match o.getTokenPairs token_address with
                            | .error e => (Except.error e, st, [])
                            | .ok token_pairs =>
                              let pool_address :=
                                resolvePoolAddress token_pairs
                              match token_data.priceUsd with
                              | none => (Except.ok .ERROR, st, [])
                              | some price_val =>
                                -- Line 178-181: net_token_flow divides by
                                -- float(price_val); price 0 raises
                                -- ZeroDivisionError.
                                if price_val = 0 then
                                  (Except.error (), st, [])
                                else
                                  let _net_token_flow :=
                                    (token_analytics.totalBuyVolume_24h
                                      - token_analytics.totalSellVolume_24h)
                                      / price_val
                                  let _avg_trades_per_hour :=
                                    (token_analytics.totalBuys_24h
                                      + token_analytics.totalSells_24h) / 24
                                  match o.get24hCandlestickData pool_address with
                                  | .error e => (Except.error e, st, [])
                                  | .ok candlestick_data =>
                                    -- _get_tx_analysis, DexScreener links
                                    -- (failure caught, links = []) and the
                                    -- Helius fetch (failure caught,
                                    -- helius_data = None) only shape the
                                    -- alert payload; elided.
                                    match sendAlertE o token_address
                                        candlestick_data with
                                    | .error e =>
                                      (Except.error e, st,
                                        [Event.sendAlert token_address])
                                    | .ok _ =>
                                      let ignore_till := timestamp +
                                        cfg.SECONDS_TO_IGNORE_TOKEN_OR_POOL_AFTER_SIGNAL
                                      let st1 := addTokenToIgnore st
                                        token_address ignore_till
                                      match o.storeAlerted token_address with
                                      | .error e =>
                                        (Except.error e, st1,
                                          [Event.sendAlert token_address,
                                            Event.addIgnore token_address
                                              ignore_till,
                                            Event.storeAlerted token_address])
                                      | .ok _ =>
                                        (Except.ok .PASSED, st1,
                                          [Event.sendAlert token_address,
                                            Event.addIgnore token_address
                                              ignore_till,
                                            Event.storeAlerted token_address])

/-- `collectTop5Go` collects, in order, the non-contract holders still
missing to reach five. -/
theorem collectTop5Go_eq (l : List Holder) :
    ∀ acc : List Holder, acc.length < 5 →
      collectTop5Go l acc =
        acc ++ (l.filter (fun h => !h.isContract)).take (5 - acc.length) := by
  induction l with
  | nil => intro acc _; simp [collectTop5Go]
  | cons h rest ih =>
    intro acc hacc
    by_cases hc : h.isContract
    · simp [collectTop5Go, hc, ih acc hacc]
    · simp only [collectTop5Go, hc, if_false, Bool.not_eq_true]
      by_cases hlen : (acc ++ [h]).length = 5
      · have h5 : 5 - acc.length = 1 := by simp at hlen; omega
        simp [hlen, hc, h5]
      · have hlt : (acc ++ [h]).length < 5 := by simp at hlen ⊢; omega
        have h5 : 5 - acc.length = (5 - (acc ++ [h]).length) + 1 := by
          simp at hlt ⊢; omega
        simp [hlen, ih _ hlt, hc, h5]
        intro h4
        exfalso
        simp at hlt
        omega

/-- The holder-selection loop equals: filter out contract-flagged holders,
then take the first five. -/
theorem collectTop5NonContract_eq (holders : List Holder) :
    collectTop5NonContract holders =
      (holders.filter (fun h => !h.isContract)).take 5 := by
  simpa using collectTop5Go_eq holders [] (by simp)

/-- The evaluation of one candidate either leaves the cooldown cache
unchanged or writes the single entry for its own address. -/
theorem handle_state_cases (o : Oracle) (cfg : ScannerConfig)
    (params : SolanaChainParameterConfig) (st : IgnoreMap) (t : TokenData) (ts : ℤ) :
    (handleTokenOfInterest o cfg params st t ts).2.1 = st ∨
      (handleTokenOfInterest o cfg params st t ts).2.1 =
        addTokenToIgnore st t.tokenAddress
          (ts + cfg.SECONDS_TO_IGNORE_TOKEN_OR_POOL_AFTER_SIGNAL) := by
  simp only [handleTokenOfInterest]
  repeat' split
  all_goals first | exact Or.inl rfl | exact Or.inr rfl

/-- A suppressed candidate is classified IGNORABLE with no state change and
no side effect. -/
theorem handle_ignorable (o : Oracle) (cfg : ScannerConfig)
    (params : SolanaChainParameterConfig) (st : IgnoreMap) (t : TokenData) (ts : ℤ)
    (h : tokenIsIgnorable st t.tokenAddress ts = true) :
    handleTokenOfInterest o cfg params st t ts =
      (Except.ok .IGNORABLE, st, []) := by
  simp [handleTokenOfInterest, h]

/-- On a PASSED classification the final cache is the input cache extended
with the candidate's cooldown entry, and the side effects are, in order:
the alert handoff, the cooldown write, the alerted-token store. -/
theorem handle_passed_shape (o : Oracle) (cfg : ScannerConfig)
    (params : SolanaChainParameterConfig) (st : IgnoreMap) (t : TokenData) (ts : ℤ)
    (res : Except Unit HandlePoolResponse) (st2 : IgnoreMap) (evts : List Event)
    (hh : handleTokenOfInterest o cfg params st t ts = (res, st2, evts))
    (h : res = Except.ok .PASSED) :
    st2 = addTokenToIgnore st t.tokenAddress
        (ts + cfg.SECONDS_TO_IGNORE_TOKEN_OR_POOL_AFTER_SIGNAL) ∧
      evts = [Event.sendAlert t.tokenAddress,
        Event.addIgnore t.tokenAddress
          (ts + cfg.SECONDS_TO_IGNORE_TOKEN_OR_POOL_AFTER_SIGNAL),
        Event.storeAlerted t.tokenAddress] := by
  simp only [handleTokenOfInterest] at hh
  repeat' split at hh
  all_goals (simp only [Prod.mk.injEq] at hh; obtain ⟨rfl, rfl, rfl⟩ := hh)
  all_goals simp_all

/-- Exact characterization of the TOP_5_HOLDERS_ABOVE_TH outcome. -/
theorem handle_top5_iff (o : Oracle) (cfg : ScannerConfig)
    (params : SolanaChainParameterConfig) (st : IgnoreMap) (t : TokenData) (ts : ℤ)
    (res : Except Unit HandlePoolResponse) (st2 : IgnoreMap) (evts : List Event)
    (hh : handleTokenOfInterest o cfg params st t ts = (res, st2, evts)) :
    res = Except.ok .TOP_5_HOLDERS_ABOVE_TH ↔
      tokenIsIgnorable st t.tokenAddress ts = false ∧
      ∃ lq mc holders, t.liquidity = some lq ∧
        ¬ lq < params.min_liquidity_in_usd ∧
        t.fullyDilutedValuation = some mc ∧
        ¬ (mc < params.min_mcap_in_usd ∨ mc > params.max_mcap_in_usd) ∧
        o.getTopTokenHolders t.tokenAddress = Except.ok holders ∧
        ((collectTop5NonContract holders).map
            (·.percentageRelativeToTotalSupply)).sum
          > params.max_holding_percentage_top_5_holders := by
  simp only [handleTokenOfInterest] at hh
  repeat' split at hh
  all_goals (simp only [Prod.mk.injEq] at hh; obtain ⟨rfl, rfl, rfl⟩ := hh)
  all_goals try simp_all
  all_goals (intro h1 h2 _ _; rcases ‹_ < _ ∨ _ < _› with h3 | h3 <;> linarith)

set_option maxHeartbeats 1600000 in
/-- Exact characterization of the NO_BUY_OUTLIER outcome, with the
threshold written as in line 155-158 of the source. -/
theorem handle_no_buy_outlier_iff (o : Oracle) (cfg : ScannerConfig)
    (params : SolanaChainParameterConfig) (st : IgnoreMap) (t : TokenData) (ts : ℤ)
    (res : Except Unit HandlePoolResponse) (st2 : IgnoreMap) (evts : List Event)
    (hh : handleTokenOfInterest o cfg params st t ts = (res, st2, evts)) :
    res = Except.ok .NO_BUY_OUTLIER ↔
      tokenIsIgnorable st t.tokenAddress ts = false ∧
      ∃ lq mc holders stats ana, t.liquidity = some lq ∧
        ¬ lq < params.min_liquidity_in_usd ∧
        t.fullyDilutedValuation = some mc ∧
        ¬ (mc < params.min_mcap_in_usd ∨ mc > params.max_mcap_in_usd) ∧
        o.getTopTokenHolders t.tokenAddress = Except.ok holders ∧
        ¬ ((collectTop5NonContract holders).map
            (·.percentageRelativeToTotalSupply)).sum
          > params.max_holding_percentage_top_5_holders ∧
        o.getTokenHolderStats t.tokenAddress = Except.ok stats ∧
        ¬ stats.totalHolders < params.min_holder_count ∧
        o.getTokenAnalytics t.tokenAddress = Except.ok ana ∧
        ¬ ana.totalBuyVolume_24h + ana.totalBuyVolume_24h <
            mc * params.min_24h_usd_volume_as_percentage_of_mcap / 100 ∧
        ana.totalBuyVolume_1h ≤
          ana.totalBuyVolume_24h * params.std_multiple_for_outlier / 24 := by
  simp only [handleTokenOfInterest] at hh
  repeat' split at hh
  all_goals (simp only [Prod.mk.injEq] at hh; obtain ⟨rfl, rfl, rfl⟩ := hh)
  all_goals try simp_all
  all_goals (intros; rcases ‹_ < _ ∨ _ < _› with h3 | h3 <;> linarith)

/-- Forward path: a non-suppressed candidate with liquidity present but
below the floor exits at stage 3 with MIN_LIQUIDITY, before the missing
price field could ever be inspected. -/
theorem handle_min_liquidity_path (o : Oracle) (cfg : ScannerConfig)
    (params : SolanaChainParameterConfig) (st : IgnoreMap) (t : TokenData)
    (ts : ℤ) (lq : ℚ)
    (hIgn : tokenIsIgnorable st t.tokenAddress ts = false)
    (hLq : t.liquidity = some lq)
    (h : lq < params.min_liquidity_in_usd) :
    handleTokenOfInterest o cfg params st t ts =
      (Except.ok .MIN_LIQUIDITY, st, []) := by
  simp [handleTokenOfInterest, hIgn, hLq, h]

/-- Forward path: exit at stage 7 with MIN_24H_VOLUME when the source's
self-sum of the 24h buy volume is below the floor. -/
theorem handle_min_volume_path (o : Oracle) (cfg : ScannerConfig)
    (params : SolanaChainParameterConfig) (st : IgnoreMap) (t : TokenData)
    (ts : ℤ) (lq mc : ℚ) (holders : List Holder) (stats : HolderStats)
    (ana : TokenAnalytics)
    (hIgn : tokenIsIgnorable st t.tokenAddress ts = false)
    (hLq : t.liquidity = some lq)
    (hLqOk : ¬ lq < params.min_liquidity_in_usd)
    (hMc : t.fullyDilutedValuation = some mc)
    (hMcOk : ¬ (mc < params.min_mcap_in_usd ∨ mc > params.max_mcap_in_usd))
    (hH : o.getTopTokenHolders t.tokenAddress = Except.ok holders)
    (hTop : ¬ ((collectTop5NonContract holders).map
        (·.percentageRelativeToTotalSupply)).sum
      > params.max_holding_percentage_top_5_holders)
    (hS : o.getTokenHolderStats t.tokenAddress = Except.ok stats)
    (hSOk : ¬ stats.totalHolders < params.min_holder_count)
    (hA : o.getTokenAnalytics t.tokenAddress = Except.ok ana)
    (hVol : ana.totalBuyVolume_24h + ana.totalBuyVolume_24h <
      mc * params.min_24h_usd_volume_as_percentage_of_mcap / 100) :
    handleTokenOfInterest o cfg params st t ts =
      (Except.ok .MIN_24H_VOLUME, st, []) := by
  simp [handleTokenOfInterest, hIgn, hLq, hLqOk, hMc, hMcOk, hH, hTop, hS,
    hSOk, hA, hVol]

/-- Forward path: an escaped holder-list lookup failure leaves the response
as the exception, with state and effects untouched. -/
theorem handle_holders_error_path (o : Oracle) (cfg : ScannerConfig)
    (params : SolanaChainParameterConfig) (st : IgnoreMap) (t : TokenData)
    (ts : ℤ) (lq mc : ℚ)
    (hIgn : tokenIsIgnorable st t.tokenAddress ts = false)
    (hLq : t.liquidity = some lq)
    (hLqOk : ¬ lq < params.min_liquidity_in_usd)
    (hMc : t.fullyDilutedValuation = some mc)
    (hMcOk : ¬ (mc < params.min_mcap_in_usd ∨ mc > params.max_mcap_in_usd))
    (hH : o.getTopTokenHolders t.tokenAddress = Except.error ()) :
    handleTokenOfInterest o cfg params st t ts =
      (Except.error (), st, []) := by
  simp [handleTokenOfInterest, hIgn, hLq, hLqOk, hMc, hMcOk, hH]

/-- Forward path: with every stage passing, price present and nonzero, and
the downstream calls succeeding, the candidate is classified PASSED with
the cooldown write and the source-ordered effect trace. No hypothesis
constrains `resolvePoolAddress token_pairs`: the classification does not
depend on the pool resolving. -/
theorem handle_passed_path (o : Oracle) (cfg : ScannerConfig)
    (params : SolanaChainParameterConfig) (st : IgnoreMap) (t : TokenData)
    (ts : ℤ) (lq mc : ℚ) (holders : List Holder) (stats : HolderStats)
    (ana : TokenAnalytics) (md : TokenMetadata) (token_pairs : List TokenPair)
    (price : ℚ) (candles : List ℤ)
    (hIgn : tokenIsIgnorable st t.tokenAddress ts = false)
    (hLq : t.liquidity = some lq)
    (hLqOk : ¬ lq < params.min_liquidity_in_usd)
    (hMc : t.fullyDilutedValuation = some mc)
    (hMcOk : ¬ (mc < params.min_mcap_in_usd ∨ mc > params.max_mcap_in_usd))
    (hH : o.getTopTokenHolders t.tokenAddress = Except.ok holders)
    (hTop : ¬ ((collectTop5NonContract holders).map
        (·.percentageRelativeToTotalSupply)).sum
      > params.max_holding_percentage_top_5_holders)
    (hS : o.getTokenHolderStats t.tokenAddress = Except.ok stats)
    (hSOk : ¬ stats.totalHolders < params.min_holder_count)
    (hA : o.getTokenAnalytics t.tokenAddress = Except.ok ana)
    (hVol : ¬ ana.totalBuyVolume_24h + ana.totalBuyVolume_24h <
      mc * params.min_24h_usd_volume_as_percentage_of_mcap / 100)
    (hOut : ¬ ana.totalBuyVolume_1h ≤
      ana.totalBuyVolume_24h * params.std_multiple_for_outlier / 24)
    (hMd : o.getTokenMetadata t.tokenAddress = Except.ok md)
    (hPairs : o.getTokenPairs t.tokenAddress = Except.ok token_pairs)
    (hPrice : t.priceUsd = some price)
    (hPrice0 : ¬ price = 0)
    (hCandles : o.get24hCandlestickData (resolvePoolAddress token_pairs)
      = Except.ok candles)
    (hSend : sendAlertE o t.tokenAddress candles = Except.ok ())
    (hStore : o.storeAlerted t.tokenAddress = Except.ok ()) :
    handleTokenOfInterest o cfg params st t ts =
      (Except.ok .PASSED,
        addTokenToIgnore st t.tokenAddress
          (ts + cfg.SECONDS_TO_IGNORE_TOKEN_OR_POOL_AFTER_SIGNAL),
        [Event.sendAlert t.tokenAddress,
          Event.addIgnore t.tokenAddress
            (ts + cfg.SECONDS_TO_IGNORE_TOKEN_OR_POOL_AFTER_SIGNAL),
          Event.storeAlerted t.tokenAddress]) := by
  simp [handleTokenOfInterest, hIgn, hLq, hLqOk, hMc, hMcOk, hH, hTop, hS,
    hSOk, hA, hVol, hOut, hMd, hPairs, hPrice, hPrice0, hCandles, hSend,
    hStore]

/-- `run` lines 503-507: tally one classification label into the scan-report
dict (`if resp_key not in scan_report: scan_report[resp_key] = 0;
scan_report[resp_key] += 1`), preserving dict insertion order. -/
def tallyReport : List (String × ℕ) → String → List (String × ℕ)
  | [], resp_key => [(resp_key, 1)]
  | (k, n) :: rest, resp_key =>
    if resp_key = k then (k, n + 1) :: rest
    else (k, n) :: tallyReport rest resp_key

/-- Total number of classifications recorded in a scan report. -/
def reportTotal (report : List (String × ℕ)) : ℕ :=
  (report.map (fun kv => kv.2)).sum

/-- `run` lines 492-507: the per-cycle candidate loop. Each candidate is
evaluated from the state the previous candidates left; an exception escaping
`_handle_token_of_interest` is caught at the per-candidate boundary and
tallied as ERROR (lines 496-501), with the instance state as the failed call
left it. -/
def runCycleLoop (o : Oracle) (cfg : ScannerConfig)
    (params : SolanaChainParameterConfig) :
    List TokenData → IgnoreMap → ℤ → List (String × ℕ) →
      IgnoreMap × List (String × ℕ)
  | [], st, _, report => (st, report)
  | token_data :: rest, st, ts, report =>
    match handleTokenOfInterest o cfg params st token_data ts with
    | (Except.ok resp, st2, _) =>
      runCycleLoop o cfg params rest st2 ts (tallyReport report resp.value)
    | (Except.error _, st2, _) =>
      runCycleLoop o cfg params rest st2 ts
        (tallyReport report HandlePoolResponse.ERROR.value)

/-- `run` lines 488-516: one cycle body inside the outer try. The candidate
fetch may fail (whole-cycle failure before any evaluation); after the loop
the report persistence may fail (whole-cycle failure after all evaluations).
The returned `IgnoreMap` is the instance state when the cycle body ends,
normally or by exception: Python does not roll `self._ignorable_tokens`
back. -/
def runCycleOnce (o : Oracle) (cfg : ScannerConfig)
    (params : SolanaChainParameterConfig) (st : IgnoreMap) (ts : ℤ) :
    IgnoreMap × Except Unit (List (String × ℕ)) :=
  match o.getRecentlyGraduatedTokens with
  | Except.error e => (st, Except.error e)
  | Except.ok tokens =>
    let r := runCycleLoop o cfg params tokens st ts []
    match o.saveScanReport r.2 with
    | Except.error e => (r.1, Except.error e)
    | Except.ok _ => (r.1, Except.ok r.2)

/-- Unfolding equation for one loop step. -/
theorem runCycleLoop_cons (o : Oracle) (cfg : ScannerConfig)
    (params : SolanaChainParameterConfig) (t : TokenData)
    (rest : List TokenData) (st : IgnoreMap) (ts : ℤ)
    (report : List (String × ℕ)) :
    runCycleLoop o cfg params (t :: rest) st ts report =
      match handleTokenOfInterest o cfg params st t ts with
      | (Except.ok resp, st2, _) =>
        runCycleLoop o cfg params rest st2 ts (tallyReport report resp.value)
      | (Except.error _, st2, _) =>
        runCycleLoop o cfg params rest st2 ts
          (tallyReport report HandlePoolResponse.ERROR.value) := rfl

/-- Tallying adds exactly one classification to the report total. -/
theorem tallyReport_total (report : List (String × ℕ)) (k : String) :
    reportTotal (tallyReport report k) = reportTotal report + 1 := by
  induction report with
  | nil => simp [tallyReport, reportTotal]
  | cons kv rest ih =>
    rcases kv with ⟨k2, n⟩
    by_cases h : k = k2 <;> simp [tallyReport, reportTotal, h] <;>
      simp [reportTotal] at ih <;> omega

/-- Every candidate contributes exactly one classification to the report. -/
theorem runCycleLoop_total (o : Oracle) (cfg : ScannerConfig)
    (params : SolanaChainParameterConfig) (ts : ℤ) :
    ∀ (tokens : List TokenData) (st : IgnoreMap) (report : List (String × ℕ)),
      reportTotal (runCycleLoop o cfg params tokens st ts report).2
        = reportTotal report + tokens.length := by
  intro tokens
  induction tokens with
  | nil => intro st report; simp [runCycleLoop]
  | cons t rest ih =>
    intro st report
    unfold runCycleLoop
    rcases hh : handleTokenOfInterest o cfg params st t ts with ⟨res, st2, evts⟩
    rcases res with e | resp <;> simp [hh, ih, tallyReport_total] <;> omega

/-- The report accumulator never influences the cooldown-cache component of
the loop. -/
theorem runCycleLoop_state_report_irrel (o : Oracle) (cfg : ScannerConfig)
    (params : SolanaChainParameterConfig) (ts : ℤ) :
    ∀ (tokens : List TokenData) (st : IgnoreMap) (r1 r2 : List (String × ℕ)),
      (runCycleLoop o cfg params tokens st ts r1).1
        = (runCycleLoop o cfg params tokens st ts r2).1 := by
  intro tokens
  induction tokens with
  | nil => intro st r1 r2; simp [runCycleLoop]
  | cons t rest ih =>
    intro st r1 r2
    unfold runCycleLoop
    rcases hh : handleTokenOfInterest o cfg params st t ts with ⟨res, st2, evts⟩
    rcases res with e | resp <;> simp only [hh] <;> exact ih st2 _ _

/-- The loop threads its cooldown cache left to right across an append. -/
theorem runCycleLoop_state_append (o : Oracle) (cfg : ScannerConfig)
    (params : SolanaChainParameterConfig) (ts : ℤ) :
    ∀ (xs ys : List TokenData) (st : IgnoreMap) (r : List (String × ℕ)),
      (runCycleLoop o cfg params (xs ++ ys) st ts r).1
        = (runCycleLoop o cfg params ys
            (runCycleLoop o cfg params xs st ts r).1 ts []).1 := by
  intro xs
  induction xs with
  | nil =>
    intro ys st r
    simp [runCycleLoop]
    exact runCycleLoop_state_report_irrel o cfg params ts ys st r []
  | cons x rest ih =>
    intro ys st r
    rcases hh : handleTokenOfInterest o cfg params st x ts with ⟨res, st2, evts⟩
    rcases res with e | resp <;>
      simp only [List.cons_append, runCycleLoop_cons, hh] <;>
      exact ih ys st2 _

/-- One candidate evaluation preserves a cooldown entry carrying this
cycle's expiry: the cache either stays unchanged or gains an entry for the
evaluated candidate's own address, and that entry carries the same expiry
`ts + cooldown`. -/
theorem handle_preserves_cooldown (o : Oracle) (cfg : ScannerConfig)
    (params : SolanaChainParameterConfig) (st : IgnoreMap) (t : TokenData)
    (ts : ℤ) (a : String)
    (h : List.lookup a st
      = some (ts + cfg.SECONDS_TO_IGNORE_TOKEN_OR_POOL_AFTER_SIGNAL)) :
    List.lookup a (handleTokenOfInterest o cfg params st t ts).2.1
      = some (ts + cfg.SECONDS_TO_IGNORE_TOKEN_OR_POOL_AFTER_SIGNAL) := by
  rcases handle_state_cases o cfg params st t ts with h1 | h1 <;> rw [h1]
  · exact h
  · unfold addTokenToIgnore
    rcases hba : a == t.tokenAddress with _ | _ <;> simp [List.lookup, hba, h]

/-- A cooldown entry with this cycle's expiry survives the rest of the
candidate loop. -/
theorem runCycleLoop_preserves_cooldown (o : Oracle) (cfg : ScannerConfig)
    (params : SolanaChainParameterConfig) (ts : ℤ) (a : String) :
    ∀ (tokens : List TokenData) (st : IgnoreMap) (r : List (String × ℕ)),
      List.lookup a st
          = some (ts + cfg.SECONDS_TO_IGNORE_TOKEN_OR_POOL_AFTER_SIGNAL) →
        List.lookup a (runCycleLoop o cfg params tokens st ts r).1
          = some (ts + cfg.SECONDS_TO_IGNORE_TOKEN_OR_POOL_AFTER_SIGNAL) := by
  intro tokens
  induction tokens with
  | nil => intro st r h; simpa [runCycleLoop] using h
  | cons t rest ih =>
    intro st r h
    have hpres := handle_preserves_cooldown o cfg params st t ts a h
    unfold runCycleLoop
    rcases hh : handleTokenOfInterest o cfg params st t ts with ⟨res, st2, evts⟩
    rw [hh] at hpres
    rcases res with e | resp <;> simpa [hh] using ih st2 _ hpres

/-- Classify an effect as the `_send_alert` notification handoff. -/
def isSendAlertEvent : Event → Bool
  | .sendAlert _ => true
  | _ => false

/-- Classify an effect as the cooldown write `_add_token_to_ignore`. -/
def isAddIgnoreEvent : Event → Bool
  | .addIgnore _ _ => true
  | _ => false

/-- Some event satisfying `p` occurs strictly before some event satisfying
`q` in the trace. -/
def existsEventBefore (p q : Event → Bool) : List Event → Bool
  | [] => false
  | e :: rest => (p e && rest.any q) || existsEventBefore p q rest

/-- Concrete scanner timing configuration (config.py defaults:
`SECONDS_TO_IGNORE_TOKEN_OR_POOL_AFTER_SIGNAL = 60`). -/
def cfgA : ScannerConfig :=
  { SECONDS_TO_IGNORE_TOKEN_OR_POOL_AFTER_SIGNAL := 60 }

/-- A candidate that clears every threshold of the default parameter set. -/
def tokP : TokenData :=
  { tokenAddress := "tokP", liquidity := some 50000
    fullyDilutedValuation := some 2000000, priceUsd := some 1 }

/-- Five non-contract holders of 6 percent each (concentration 30). -/
def holdersP : List Holder :=
  [⟨false, 6⟩, ⟨false, 6⟩, ⟨false, 6⟩, ⟨false, 6⟩, ⟨false, 6⟩]

/-- Analytics that clear the volume floor and the outlier bar under the
default parameters and a 2000000 valuation. -/
def anaP : TokenAnalytics :=
  { totalBuyVolume_24h := 200000, totalBuyVolume_1h := 20000
    totalSellVolume_24h := 100000, totalBuys_24h := 100
    totalSells_24h := 50 }

/-- Concrete metadata payload. -/
def mdP : TokenMetadata :=
  { name := "TokP", symbol := "TP", totalSupplyFormatted := 1000000 }

/-- A concrete external world on which `tokP` passes every stage; the
report persistence fails, standing for a whole-cycle failure after the
candidate loop. -/
def oP : Oracle :=
  { getTopTokenHolders := fun _ => Except.ok holdersP
    getTokenHolderStats := fun _ => Except.ok { totalHolders := 500 }
    getTokenAnalytics := fun _ => Except.ok anaP
    getTokenMetadata := fun _ => Except.ok mdP
    getTokenPairs := fun _ =>
      Except.ok [{ exchangeName := "PumpSwap", pairAddress := "poolP" }]
    get24hCandlestickData := fun _ => Except.ok [100, 200]
    deliverAlert := fun _ => Except.ok ()
    storeAlerted := fun _ => Except.ok ()
    getRecentlyGraduatedTokens := Except.ok [tokP]
    saveScanReport := fun _ => Except.error () }

/-- Like `oP` but no trading venue is named "PumpSwap" and the candlestick
query for the unresolved (empty) pool returns no rows. -/
def oC3 : Oracle :=
  { oP with
    getTokenPairs := fun _ =>
      Except.ok [{ exchangeName := "Raydium", pairAddress := "poolX" }]
    get24hCandlestickData := fun _ => Except.ok [] }

/-- Analytics with large sell volume but small buy volume: 24h buy+sell is
220000 while twice the 24h buy volume is only 40000. -/
def anaC2 : TokenAnalytics :=
  { totalBuyVolume_24h := 20000, totalBuyVolume_1h := 1000
    totalSellVolume_24h := 200000, totalBuys_24h := 100
    totalSells_24h := 50 }

/-- Candidate with a 1000000 valuation, for the stage-7 divergence input. -/
def tokC2 : TokenData :=
  { tokenAddress := "tokC2", liquidity := some 50000
    fullyDilutedValuation := some 1000000, priceUsd := some 1 }

/-- Like `oP` but with the `anaC2` analytics. -/
def oC2 : Oracle := { oP with getTokenAnalytics := fun _ => Except.ok anaC2 }

/-- Candidate with sub-floor liquidity and an absent price field. -/
def tokC4 : TokenData :=
  { tokenAddress := "tokC4", liquidity := some 0
    fullyDilutedValuation := some 2000000, priceUsd := none }

/-- Candidate with every numeric field absent. -/
def tokNoLiq : TokenData :=
  { tokenAddress := "tokNL", liquidity := none
    fullyDilutedValuation := none, priceUsd := none }

/-- Candidate with good liquidity but absent valuation. -/
def tokNoFdv : TokenData :=
  { tokenAddress := "tokNF", liquidity := some 50000
    fullyDilutedValuation := none, priceUsd := none }

/-- Candidate that clears every stage but has no price field. -/
def tokNoPrice : TokenData :=
  { tokenAddress := "tokNP", liquidity := some 50000
    fullyDilutedValuation := some 2000000, priceUsd := none }

/-- Holder list whose single largest holder is contract-flagged (60
percent); the five non-contract holders sum to 54. -/
def holders7 : List Holder :=
  [⟨true, 60⟩, ⟨false, 20⟩, ⟨false, 15⟩, ⟨false, 10⟩, ⟨false, 5⟩, ⟨false, 4⟩]

/-- Like `oP` but with the `holders7` holder list. -/
def oW7 : Oracle :=
  { oP with getTopTokenHolders := fun _ => Except.ok holders7 }

/-- Analytics sitting exactly in the spec's scenario A: 1h buy volume 15000
against a threshold of 200000 times 2 over 24. -/
def anaW8 : TokenAnalytics :=
  { totalBuyVolume_24h := 200000, totalBuyVolume_1h := 15000
    totalSellVolume_24h := 100000, totalBuys_24h := 100
    totalSells_24h := 50 }

/-- Like `oP` but with the `anaW8` analytics. -/
def oW8 : Oracle := { oP with getTokenAnalytics := fun _ => Except.ok anaW8 }

/-- Like `oP` but the holder-list lookup raises after its retry budget. -/
def oErr : Oracle :=
  { oP with getTopTokenHolders := fun _ => Except.error () }

/-- On the concrete world `oP`, the candidate `tokP` is classified PASSED at
timestamp 1000, and the effect trace is send, cooldown write, store. -/
theorem oP_passes :
    handleTokenOfInterest oP cfgA default_config [] tokP 1000 =
      (Except.ok .PASSED,
        addTokenToIgnore [] tokP.tokenAddress
          (1000 + cfgA.SECONDS_TO_IGNORE_TOKEN_OR_POOL_AFTER_SIGNAL),
        [Event.sendAlert tokP.tokenAddress,
          Event.addIgnore tokP.tokenAddress
            (1000 + cfgA.SECONDS_TO_IGNORE_TOKEN_OR_POOL_AFTER_SIGNAL),
          Event.storeAlerted tokP.tokenAddress]) :=
  handle_passed_path oP cfgA default_config [] tokP 1000 50000 2000000
    holdersP ⟨500⟩ anaP mdP [{ exchangeName := "PumpSwap", pairAddress := "poolP" }]
    1 [100, 200]
    rfl rfl (by norm_num [default_config, tokP])
    rfl (by norm_num [default_config, tokP])
    rfl
    (by norm_num [default_config, collectTop5NonContract, collectTop5Go,
      holdersP])
    rfl (by norm_num [default_config])
    rfl (by norm_num [default_config, anaP])
    (by norm_num [default_config, anaP])
    rfl rfl rfl (by norm_num) rfl rfl rfl

/-- On the world `oC3`, where no venue matches "PumpSwap", the candidate
`tokP` is still classified PASSED at timestamp 1000. -/
theorem oC3_passes :
    handleTokenOfInterest oC3 cfgA default_config [] tokP 1000 =
      (Except.ok .PASSED,
        addTokenToIgnore [] tokP.tokenAddress
          (1000 + cfgA.SECONDS_TO_IGNORE_TOKEN_OR_POOL_AFTER_SIGNAL),
        [Event.sendAlert tokP.tokenAddress,
          Event.addIgnore tokP.tokenAddress
            (1000 + cfgA.SECONDS_TO_IGNORE_TOKEN_OR_POOL_AFTER_SIGNAL),
          Event.storeAlerted tokP.tokenAddress]) :=
  handle_passed_path oC3 cfgA default_config [] tokP 1000 50000 2000000
    holdersP ⟨500⟩ anaP mdP [{ exchangeName := "Raydium", pairAddress := "poolX" }]
    1 []
    rfl rfl (by norm_num [default_config, tokP])
    rfl (by norm_num [default_config, tokP])
    rfl
    (by norm_num [default_config, collectTop5NonContract, collectTop5Go,
      holdersP])
    rfl (by norm_num [default_config])
    rfl (by norm_num [default_config, anaP])
    (by norm_num [default_config, anaP])
    rfl rfl rfl (by norm_num) rfl rfl rfl

/-- C1 counterexample: a concrete PASSED evaluation in which the alert
handoff is the first effect and the cooldown write the second: the send is
performed exactly once, but no cooldown write precedes it. -/
theorem c1_counterexample :
    (handleTokenOfInterest oP cfgA default_config [] tokP 1000).1
        = Except.ok .PASSED ∧
      (handleTokenOfInterest oP cfgA default_config [] tokP 1000).2.2.countP
        (fun e => isSendAlertEvent e) = 1 ∧
      existsEventBefore isAddIgnoreEvent isSendAlertEvent
        (handleTokenOfInterest oP cfgA default_config [] tokP 1000).2.2
        = false ∧
      existsEventBefore isSendAlertEvent isAddIgnoreEvent
        (handleTokenOfInterest oP cfgA default_config [] tokP 1000).2.2
        = true := by
  rw [oP_passes]
  refine ⟨rfl, ?_, ?_, ?_⟩ <;> rfl

/-- C1 (amended): for every candidate classified PASSED, the notification
send (`_send_alert`) is performed exactly once and the cooldown write is
performed exactly once, with the send strictly before the cooldown write in
program order (not after it, as claimed): a delivery failure therefore
prevents the cooldown write instead of being decoupled from it. -/
theorem c1_send_once_before_cooldown (o : Oracle) (cfg : ScannerConfig)
    (params : SolanaChainParameterConfig) (st : IgnoreMap) (t : TokenData)
    (ts : ℤ) (res : Except Unit HandlePoolResponse) (st2 : IgnoreMap)
    (evts : List Event)
    (hh : handleTokenOfInterest o cfg params st t ts = (res, st2, evts))
    (hres : res = Except.ok .PASSED) :
    evts.countP (fun e => isSendAlertEvent e) = 1 ∧
      evts.countP (fun e => isAddIgnoreEvent e) = 1 ∧
      existsEventBefore isSendAlertEvent isAddIgnoreEvent evts = true ∧
      existsEventBefore isAddIgnoreEvent isSendAlertEvent evts = false := by
  obtain ⟨-, hev⟩ :=
    handle_passed_shape o cfg params st t ts res st2 evts hh hres
  subst hev
  refine ⟨?_, ?_, ?_, ?_⟩ <;>
    simp [List.countP_cons, List.countP_nil, isSendAlertEvent,
      isAddIgnoreEvent, existsEventBefore]

/-- Witness for C1 at the concrete PASSED run of `oP`. -/
theorem c1_send_once_before_cooldown_witness :
    (([Event.sendAlert "tokP", Event.addIgnore "tokP" 1060,
        Event.storeAlerted "tokP"] : List Event).countP
      (fun e => isSendAlertEvent e) = 1) ∧
      (([Event.sendAlert "tokP", Event.addIgnore "tokP" 1060,
          Event.storeAlerted "tokP"] : List Event).countP
        (fun e => isAddIgnoreEvent e) = 1) ∧
      existsEventBefore isSendAlertEvent isAddIgnoreEvent
        [Event.sendAlert "tokP", Event.addIgnore "tokP" 1060,
          Event.storeAlerted "tokP"] = true ∧
      existsEventBefore isAddIgnoreEvent isSendAlertEvent
        [Event.sendAlert "tokP", Event.addIgnore "tokP" 1060,
          Event.storeAlerted "tokP"] = false :=
  c1_send_once_before_cooldown oP cfgA default_config [] tokP 1000 _ _ _
    oP_passes rfl

/-- C2: the stage-7 volume floor in the source adds the 24h buy volume to
itself (line 140-143); at this input the code classifies MIN_24H_VOLUME
although the 24h buy+sell volume (220000) is not below valuation times the
percentage floor (50000): the claimed buy+sell comparison does not describe
the code. -/
theorem c2_volume_floor_self_sum :
    (handleTokenOfInterest oC2 cfgA default_config [] tokC2 1000).1
        = Except.ok .MIN_24H_VOLUME ∧
      ¬ anaC2.totalBuyVolume_24h + anaC2.totalSellVolume_24h <
          (1000000 : ℚ) *
            default_config.min_24h_usd_volume_as_percentage_of_mcap / 100 := by
  constructor
  · exact congrArg Prod.fst
      (handle_min_volume_path oC2 cfgA default_config [] tokC2 1000
        50000 1000000 holdersP ⟨500⟩ anaC2
        rfl rfl (by norm_num [default_config, tokC2])
        rfl (by norm_num [default_config, tokC2])
        rfl
        (by norm_num [default_config, collectTop5NonContract, collectTop5Go,
          holdersP])
        rfl (by norm_num [default_config])
        rfl (by norm_num [default_config, anaC2]))
  · norm_num [anaC2, default_config]

/-- C3 counterexample: no venue matches "PumpSwap", so the pool resolves to
the empty address, yet the candidate is classified PASSED, not ERROR. -/
theorem c3_counterexample :
    resolvePoolAddress [{ exchangeName := "Raydium", pairAddress := "poolX" }]
        = "" ∧
      (handleTokenOfInterest oC3 cfgA default_config [] tokP 1000).1
        = Except.ok .PASSED := by
  refine ⟨rfl, ?_⟩
  rw [oC3_passes]

/-- C3 (amended): a candidate that passes stages 1 through 8, has a present
nonzero price, and whose remaining external calls and effects succeed is
classified PASSED regardless of pool resolution: no hypothesis mentions the
resolved pool, and an unresolved pool at most makes the candlestick list
empty, which skips the alert delivery without changing the
classification. -/
theorem c3_passed_even_without_pool (o : Oracle) (cfg : ScannerConfig)
    (params : SolanaChainParameterConfig) (st : IgnoreMap) (t : TokenData)
    (ts : ℤ) (lq mc : ℚ) (holders : List Holder) (stats : HolderStats)
    (ana : TokenAnalytics) (md : TokenMetadata) (token_pairs : List TokenPair)
    (price : ℚ) (candles : List ℤ)
    (hIgn : tokenIsIgnorable st t.tokenAddress ts = false)
    (hLq : t.liquidity = some lq)
    (hLqOk : ¬ lq < params.min_liquidity_in_usd)
    (hMc : t.fullyDilutedValuation = some mc)
    (hMcOk : ¬ (mc < params.min_mcap_in_usd ∨ mc > params.max_mcap_in_usd))
    (hH : o.getTopTokenHolders t.tokenAddress = Except.ok holders)
    (hTop : ¬ ((collectTop5NonContract holders).map
        (·.percentageRelativeToTotalSupply)).sum
      > params.max_holding_percentage_top_5_holders)
    (hS : o.getTokenHolderStats t.tokenAddress = Except.ok stats)
    (hSOk : ¬ stats.totalHolders < params.min_holder_count)
    (hA : o.getTokenAnalytics t.tokenAddress = Except.ok ana)
    (hVol : ¬ ana.totalBuyVolume_24h + ana.totalBuyVolume_24h <
      mc * params.min_24h_usd_volume_as_percentage_of_mcap / 100)
    (hOut : ¬ ana.totalBuyVolume_1h ≤
      ana.totalBuyVolume_24h * params.std_multiple_for_outlier / 24)
    (hMd : o.getTokenMetadata t.tokenAddress = Except.ok md)
    (hPairs : o.getTokenPairs t.tokenAddress = Except.ok token_pairs)
    (hPrice : t.priceUsd = some price)
    (hPrice0 : ¬ price = 0)
    (hCandles : o.get24hCandlestickData (resolvePoolAddress token_pairs)
      = Except.ok candles)
    (hSend : sendAlertE o t.tokenAddress candles = Except.ok ())
    (hStore : o.storeAlerted t.tokenAddress = Except.ok ()) :
    (handleTokenOfInterest o cfg params st t ts).1 = Except.ok .PASSED :=
  congrArg Prod.fst
    (handle_passed_path o cfg params st t ts lq mc holders stats ana md
      token_pairs price candles hIgn hLq hLqOk hMc hMcOk hH hTop hS hSOk hA
      hVol hOut hMd hPairs hPrice hPrice0 hCandles hSend hStore)

/-- Witness for C3 on the world with no matching venue. -/
theorem c3_passed_even_without_pool_witness :
    (handleTokenOfInterest oC3 cfgA default_config [] tokP 1000).1
      = Except.ok .PASSED :=
  c3_passed_even_without_pool oC3 cfgA default_config [] tokP 1000
    50000 2000000 holdersP ⟨500⟩ anaP mdP
    [{ exchangeName := "Raydium", pairAddress := "poolX" }] 1 []
    rfl rfl (by norm_num [default_config, tokP])
    rfl (by norm_num [default_config, tokP])
    rfl
    (by norm_num [default_config, collectTop5NonContract, collectTop5Go,
      holdersP])
    rfl (by norm_num [default_config])
    rfl (by norm_num [default_config, anaP])
    (by norm_num [default_config, anaP])
    rfl rfl rfl (by norm_num) rfl rfl rfl

/-- C4 counterexample: a candidate whose price is absent but whose liquidity
is present and below the floor is classified MIN_LIQUIDITY, not ERROR: the
absent price is not detected at stage 2. -/
theorem c4_counterexample :
    tokC4.priceUsd = none ∧
      (handleTokenOfInterest oP cfgA default_config [] tokC4 0).1
        = Except.ok .MIN_LIQUIDITY := by
  refine ⟨rfl, ?_⟩
  exact congrArg Prod.fst
    (handle_min_liquidity_path oP cfgA default_config [] tokC4 0 0
      rfl rfl (by norm_num [default_config, tokC4]))

/-- C4 (amended): missing liquidity yields ERROR before the liquidity
threshold; missing valuation yields ERROR after the liquidity threshold but
before the valuation range; missing price yields ERROR only after stages 3
through 8 and the metadata/pairs lookups, so a candidate with absent price
can still receive a threshold outcome such as MIN_LIQUIDITY. -/
theorem c4_missing_field_error (o : Oracle) (cfg : ScannerConfig)
    (params : SolanaChainParameterConfig) (st : IgnoreMap) (t : TokenData)
    (ts : ℤ)
    (hIgn : tokenIsIgnorable st t.tokenAddress ts = false) :
    (t.liquidity = none →
      (handleTokenOfInterest o cfg params st t ts).1 = Except.ok .ERROR) ∧
    (∀ lq, t.liquidity = some lq → ¬ lq < params.min_liquidity_in_usd →
      t.fullyDilutedValuation = none →
      (handleTokenOfInterest o cfg params st t ts).1 = Except.ok .ERROR) ∧
    (∀ lq mc holders stats ana md token_pairs,
      t.liquidity = some lq → ¬ lq < params.min_liquidity_in_usd →
      t.fullyDilutedValuation = some mc →
      ¬ (mc < params.min_mcap_in_usd ∨ mc > params.max_mcap_in_usd) →
      o.getTopTokenHolders t.tokenAddress = Except.ok holders →
      ¬ ((collectTop5NonContract holders).map
          (·.percentageRelativeToTotalSupply)).sum
        > params.max_holding_percentage_top_5_holders →
      o.getTokenHolderStats t.tokenAddress = Except.ok stats →
      ¬ stats.totalHolders < params.min_holder_count →
      o.getTokenAnalytics t.tokenAddress = Except.ok ana →
      ¬ ana.totalBuyVolume_24h + ana.totalBuyVolume_24h <
        mc * params.min_24h_usd_volume_as_percentage_of_mcap / 100 →
      ¬ ana.totalBuyVolume_1h ≤
        ana.totalBuyVolume_24h * params.std_multiple_for_outlier / 24 →
      o.getTokenMetadata t.tokenAddress = Except.ok md →
      o.getTokenPairs t.tokenAddress = Except.ok token_pairs →
      t.priceUsd = none →
      (handleTokenOfInterest o cfg params st t ts).1 = Except.ok .ERROR) := by
  refine ⟨?_, ?_, ?_⟩
  · intro h
    simp [handleTokenOfInterest, hIgn, h]
  · intro lq h1 h2 h3
    simp [handleTokenOfInterest, hIgn, h1, h2, h3]
  · intro lq mc holders stats ana md token_pairs h1 h2 h3 h4 h5 h6 h7 h8 h9
      h10 h11 h12 h13 h14
    simp [handleTokenOfInterest, hIgn, h1, h2, h3, h4, h5, h6, h7, h8, h9,
      h10, h11, h12, h13, h14]

/-- Witness for C4: each of the three missing-field positions refuted or
confirmed at a concrete candidate. -/
theorem c4_missing_field_error_witness :
    (handleTokenOfInterest oP cfgA default_config [] tokNoLiq 0).1
        = Except.ok .ERROR ∧
      (handleTokenOfInterest oP cfgA default_config [] tokNoFdv 0).1
        = Except.ok .ERROR ∧
      (handleTokenOfInterest oP cfgA default_config [] tokNoPrice 0).1
        = Except.ok .ERROR := by
  refine ⟨(c4_missing_field_error oP cfgA default_config [] tokNoLiq 0
      rfl).1 rfl, ?_, ?_⟩
  · exact (c4_missing_field_error oP cfgA default_config [] tokNoFdv 0
      rfl).2.1 50000 rfl (by norm_num [default_config]) rfl
  · exact (c4_missing_field_error oP cfgA default_config [] tokNoPrice 0
      rfl).2.2 50000 2000000 holdersP ⟨500⟩ anaP mdP
      [{ exchangeName := "PumpSwap", pairAddress := "poolP" }]
      rfl (by norm_num [default_config]) rfl
      (by norm_num [default_config])
      rfl
      (by norm_num [default_config, collectTop5NonContract, collectTop5Go,
        holdersP])
      rfl (by norm_num [default_config])
      rfl (by norm_num [default_config, anaP])
      (by norm_num [default_config, anaP])
      rfl rfl rfl

/-- C7: for a candidate reaching stage 5, the classification is
TOP_5_HOLDERS_ABOVE_TH exactly when the sum of the supply percentages of
the first five non-contract holders (contract-flagged holders skipped
without consuming a slot) strictly exceeds the threshold; an exactly-equal
sum does not trigger it. -/
theorem c7_top5_concentration (o : Oracle) (cfg : ScannerConfig)
    (params : SolanaChainParameterConfig) (st : IgnoreMap) (t : TokenData)
    (ts : ℤ) (lq mc : ℚ) (holders : List Holder)
    (hIgn : tokenIsIgnorable st t.tokenAddress ts = false)
    (hLq : t.liquidity = some lq)
    (hLqOk : ¬ lq < params.min_liquidity_in_usd)
    (hMc : t.fullyDilutedValuation = some mc)
    (hMcOk : ¬ (mc < params.min_mcap_in_usd ∨ mc > params.max_mcap_in_usd))
    (hH : o.getTopTokenHolders t.tokenAddress = Except.ok holders) :
    ((handleTokenOfInterest o cfg params st t ts).1
        = Except.ok .TOP_5_HOLDERS_ABOVE_TH ↔
      (((holders.filter (fun h => !h.isContract)).take 5).map
          (·.percentageRelativeToTotalSupply)).sum
        > params.max_holding_percentage_top_5_holders) ∧
    ((((holders.filter (fun h => !h.isContract)).take 5).map
          (·.percentageRelativeToTotalSupply)).sum
        = params.max_holding_percentage_top_5_holders →
      ¬ (handleTokenOfInterest o cfg params st t ts).1
        = Except.ok .TOP_5_HOLDERS_ABOVE_TH) := by
  rcases hh : handleTokenOfInterest o cfg params st t ts with ⟨res, st2, evts⟩
  have hiff := handle_top5_iff o cfg params st t ts res st2 evts hh
  have hmain : res = Except.ok .TOP_5_HOLDERS_ABOVE_TH ↔
      (((holders.filter (fun h => !h.isContract)).take 5).map
          (·.percentageRelativeToTotalSupply)).sum
        > params.max_holding_percentage_top_5_holders := by
    rw [hiff]
    have hLq2 : params.min_liquidity_in_usd ≤ lq := not_lt.mp hLqOk
    obtain ⟨hMc1, hMc2⟩ := not_or.mp hMcOk
    have hMc3 : params.min_mcap_in_usd ≤ mc := not_lt.mp hMc1
    have hMc4 : mc ≤ params.max_mcap_in_usd := not_lt.mp hMc2
    simp [hIgn, hLq, hLq2, hMc, hMc3, hMc4, hH, collectTop5NonContract_eq]
  refine ⟨hmain, fun heq hcon => ?_⟩
  have := hmain.mp hcon
  rw [heq] at this
  exact lt_irrefl _ this

/-- Witness for C7: the single largest holder is contract-flagged with 60
percent and is skipped; the five non-contract holders sum to 54 which
exceeds the 50 threshold, so the candidate is classified
TOP_5_HOLDERS_ABOVE_TH. -/
theorem c7_top5_concentration_witness :
    (handleTokenOfInterest oW7 cfgA default_config [] tokP 0).1
      = Except.ok .TOP_5_HOLDERS_ABOVE_TH := by
  refine (c7_top5_concentration oW7 cfgA default_config [] tokP 0
    50000 2000000 holders7
    rfl rfl (by norm_num [default_config, tokP])
    rfl (by norm_num [default_config, tokP]) rfl).1.mpr ?_
  norm_num [holders7, default_config]

/-- C8: for a candidate reaching stage 8, the outlier threshold is the 24h
buy volume times `std_multiple_for_outlier` divided by 24, and the
classification is NO_BUY_OUTLIER exactly when the 1h buy volume is at most
that threshold; exact equality still yields NO_BUY_OUTLIER. -/
theorem c8_outlier_threshold (o : Oracle) (cfg : ScannerConfig)
    (params : SolanaChainParameterConfig) (st : IgnoreMap) (t : TokenData)
    (ts : ℤ) (lq mc : ℚ) (holders : List Holder) (stats : HolderStats)
    (ana : TokenAnalytics)
    (hIgn : tokenIsIgnorable st t.tokenAddress ts = false)
    (hLq : t.liquidity = some lq)
    (hLqOk : ¬ lq < params.min_liquidity_in_usd)
    (hMc : t.fullyDilutedValuation = some mc)
    (hMcOk : ¬ (mc < params.min_mcap_in_usd ∨ mc > params.max_mcap_in_usd))
    (hH : o.getTopTokenHolders t.tokenAddress = Except.ok holders)
    (hTop : ¬ ((collectTop5NonContract holders).map
        (·.percentageRelativeToTotalSupply)).sum
      > params.max_holding_percentage_top_5_holders)
    (hS : o.getTokenHolderStats t.tokenAddress = Except.ok stats)
    (hSOk : ¬ stats.totalHolders < params.min_holder_count)
    (hA : o.getTokenAnalytics t.tokenAddress = Except.ok ana)
    (hVol : ¬ ana.totalBuyVolume_24h + ana.totalBuyVolume_24h <
      mc * params.min_24h_usd_volume_as_percentage_of_mcap / 100) :
    ((handleTokenOfInterest o cfg params st t ts).1
        = Except.ok .NO_BUY_OUTLIER ↔
      ana.totalBuyVolume_1h ≤
        ana.totalBuyVolume_24h * params.std_multiple_for_outlier / 24) ∧
    (ana.totalBuyVolume_1h =
        ana.totalBuyVolume_24h * params.std_multiple_for_outlier / 24 →
      (handleTokenOfInterest o cfg params st t ts).1
        = Except.ok .NO_BUY_OUTLIER) := by
  rcases hh : handleTokenOfInterest o cfg params st t ts with ⟨res, st2, evts⟩
  have hiff := handle_no_buy_outlier_iff o cfg params st t ts res st2 evts hh
  have hmain : res = Except.ok .NO_BUY_OUTLIER ↔
      ana.totalBuyVolume_1h ≤
        ana.totalBuyVolume_24h * params.std_multiple_for_outlier / 24 := by
    rw [hiff]
    have hLq2 : params.min_liquidity_in_usd ≤ lq := not_lt.mp hLqOk
    obtain ⟨hMc1, hMc2⟩ := not_or.mp hMcOk
    have hMc3 : params.min_mcap_in_usd ≤ mc := not_lt.mp hMc1
    have hMc4 : mc ≤ params.max_mcap_in_usd := not_lt.mp hMc2
    have hTop2 := not_lt.mp hTop
    have hSOk2 := not_lt.mp hSOk
    have hVol2 := not_lt.mp hVol
    simp [hIgn, hLq, hLq2, hMc, hMc3, hMc4, hH, hTop2, hS, hSOk2, hA, hVol2]
  exact ⟨hmain, fun heq => hmain.mpr (le_of_eq heq)⟩

/-- Witness for C8 at the spec's scenario A numbers: a 1h buy volume of
15000 does not exceed 200000 times 2 over 24, so the classification is
NO_BUY_OUTLIER. -/
theorem c8_outlier_threshold_witness :
    (handleTokenOfInterest oW8 cfgA default_config [] tokP 0).1
      = Except.ok .NO_BUY_OUTLIER := by
  refine (c8_outlier_threshold oW8 cfgA default_config [] tokP 0
    50000 2000000 holdersP ⟨500⟩ anaW8
    rfl rfl (by norm_num [default_config, tokP])
    rfl (by norm_num [default_config, tokP])
    rfl
    (by norm_num [default_config, collectTop5NonContract, collectTop5Go,
      holdersP])
    rfl (by norm_num [default_config])
    rfl (by norm_num [default_config, anaW8])).1.mpr ?_
  norm_num [anaW8, default_config]

/-- C9: every candidate contributes exactly one classification to the
report; the empty list yields an empty report with the cache unchanged; and
an exception escaping one candidate's evaluation is tallied as ERROR while
the loop continues over the remaining candidates from the state the failed
call left. -/
theorem c9_per_candidate_isolation (o : Oracle) (cfg : ScannerConfig)
    (params : SolanaChainParameterConfig) (ts : ℤ) :
    (∀ (tokens : List TokenData) (st : IgnoreMap)
        (report : List (String × ℕ)),
      reportTotal (runCycleLoop o cfg params tokens st ts report).2
        = reportTotal report + tokens.length) ∧
    (∀ st : IgnoreMap, runCycleLoop o cfg params [] st ts [] = (st, [])) ∧
    (∀ (t : TokenData) (rest : List TokenData) (st st2 : IgnoreMap)
        (evts : List Event) (report : List (String × ℕ)),
      handleTokenOfInterest o cfg params st t ts
          = (Except.error (), st2, evts) →
        runCycleLoop o cfg params (t :: rest) st ts report
          = runCycleLoop o cfg params rest st2 ts
              (tallyReport report HandlePoolResponse.ERROR.value)) := by
  refine ⟨runCycleLoop_total o cfg params ts, fun st => rfl, ?_⟩
  intro t rest st st2 evts report hh
  rw [runCycleLoop_cons, hh]

/-- Witness for C9 on a world whose holder lookup raises: the failing
candidate is tallied as ERROR, the total equals the candidate count, and
the empty list gives the empty report. -/
theorem c9_per_candidate_isolation_witness :
    reportTotal (runCycleLoop oErr cfgA default_config [tokP] [] 0 []).2
        = 1 ∧
      runCycleLoop oErr cfgA default_config [] [] 0 []
        = (([] : IgnoreMap), ([] : List (String × ℕ))) ∧
      runCycleLoop oErr cfgA default_config [tokP] [] 0 []
        = runCycleLoop oErr cfgA default_config [] [] 0
            (tallyReport [] HandlePoolResponse.ERROR.value) := by
  have herr : handleTokenOfInterest oErr cfgA default_config [] tokP 0
      = (Except.error (), [], []) :=
    handle_holders_error_path oErr cfgA default_config [] tokP 0
      50000 2000000
      rfl rfl (by norm_num [default_config, tokP])
      rfl (by norm_num [default_config, tokP]) rfl
  refine ⟨?_,
    (c9_per_candidate_isolation oErr cfgA default_config 0).2.1 [],
    (c9_per_candidate_isolation oErr cfgA default_config 0).2.2
      tokP [] [] [] [] [] herr⟩
  have h1 := (c9_per_candidate_isolation oErr cfgA default_config 0).1
    [tokP] [] []
  simpa [reportTotal] using h1

/-- C10: when the candidate fetch succeeded and some candidate was
classified PASSED during the loop, the cycle's final cooldown cache is the
loop's cache whatever the report persistence did, and it still maps that
candidate's address to the expiry written at classification time
(cycle timestamp plus the configured cooldown). -/
theorem c10_cooldown_not_rolled_back (o : Oracle) (cfg : ScannerConfig)
    (params : SolanaChainParameterConfig) (st : IgnoreMap) (ts : ℤ)
    (tokens pre post : List TokenData) (t : TokenData)
    (hTokens : o.getRecentlyGraduatedTokens = Except.ok tokens)
    (hSplit : tokens = pre ++ t :: post)
    (hPassed : (handleTokenOfInterest o cfg params
        (runCycleLoop o cfg params pre st ts []).1 t ts).1
      = Except.ok .PASSED) :
    (runCycleOnce o cfg params st ts).1
        = (runCycleLoop o cfg params tokens st ts []).1 ∧
      List.lookup t.tokenAddress (runCycleOnce o cfg params st ts).1
        = some (ts + cfg.SECONDS_TO_IGNORE_TOKEN_OR_POOL_AFTER_SIGNAL) := by
  have hstate : (runCycleOnce o cfg params st ts).1
      = (runCycleLoop o cfg params tokens st ts []).1 := by
    simp only [runCycleOnce, hTokens]
    cases hsave : o.saveScanReport
        (runCycleLoop o cfg params tokens st ts []).2 <;>
      simp [hsave]
  refine ⟨hstate, ?_⟩
  rw [hstate, hSplit, runCycleLoop_state_append]
  rcases hh : handleTokenOfInterest o cfg params
      (runCycleLoop o cfg params pre st ts []).1 t ts with ⟨res, st2, evts⟩
  have hres : res = Except.ok .PASSED := by
    rw [hh] at hPassed
    exact hPassed
  obtain ⟨hst2, -⟩ := handle_passed_shape o cfg params
    (runCycleLoop o cfg params pre st ts []).1 t ts res st2 evts hh hres
  subst hres
  simp only [runCycleLoop_cons, hh]
  apply runCycleLoop_preserves_cooldown
  rw [hst2]
  simp [addTokenToIgnore, List.lookup]

/-- Witness for C10: on `oP` (whose report persistence fails) the single
candidate passes, and after the failed cycle the cache still maps its
address to timestamp 1000 plus the 60-second cooldown. -/
theorem c10_cooldown_not_rolled_back_witness :
    List.lookup "tokP" (runCycleOnce oP cfgA default_config [] 1000).1
      = some 1060 := by
  have h := c10_cooldown_not_rolled_back oP cfgA default_config [] 1000
    [tokP] [] [] tokP rfl rfl (congrArg Prod.fst oP_passes)
  exact h.2

/-- Witness for C5 at the concrete custom parameter set. -/
theorem c5_reload_on_failure_yields_default_witness :
    reload_chain_parameter_config customParams ParamFile.malformed
        = default_config ∧
      reload_chain_parameter_config customParams ParamFile.absent
        = default_config :=
  c5_reload_on_failure_yields_default customParams
